import Mathlib

/-!
Verification of the Chat-Translator translation orchestration core.

This file gives a shallow embedding, in Lean 4, of the background components of
the repository: the shared utility functions (src/shared/utils.js, provided in
the repository as an unnamed source file), the shared constants
(src/shared/constants.js), the storage manager (src/background/storage-manager.js),
the translation service with its retry logic and circuit breaker
(src/background/translation-service.js), and the language detector
(src/background/language-detector.js).  Asynchronous JavaScript methods become
pure Lean functions over explicit state; side effects that the claims observe
(network attempts, sleeps, storage reads and writes) are recorded in an explicit
effect trace.  JavaScript 32-bit integer arithmetic is modelled on Int with an
explicit wrap to the interval [-2^31, 2^31).  Fallible operations return Option
or Except.
-/

namespace ChatTranslator

/-! ## Constants (src/shared/constants.js) -/

/-- CIRCUIT_BREAKER.THRESHOLD: consecutive failures before the breaker opens. -/
def THRESHOLD : Nat := 5

/-- CIRCUIT_BREAKER.TIMEOUT_MS: breaker cool-down in milliseconds. -/
def TIMEOUT_MS : Nat := 60000

/-- CIRCUIT_BREAKER.RETRY_ATTEMPTS: maximum number of network attempts. -/
def RETRY_ATTEMPTS : Nat := 3

/-- CIRCUIT_BREAKER.RETRY_DELAY_MS: base backoff delay in milliseconds. -/
def RETRY_DELAY_MS : Nat := 1000

/-- CACHE_SETTINGS.MAX_ENTRIES: cache capacity before a batch eviction. -/
def MAX_ENTRIES : Nat := 1000

/-- CACHE_SETTINGS.TTL_MS: cache entry time to live (24 hours). -/
def TTL_MS : Nat := 24 * 60 * 60 * 1000

/-- CACHE_SETTINGS.EVICTION_COUNT: entries removed in one eviction pass. -/
def EVICTION_COUNT : Nat := 200

/-- ERROR_CODES from src/shared/constants.js, a closed enumeration. -/
inductive ErrorCode where
  | API_KEY_MISSING
  | API_KEY_INVALID
  | QUOTA_EXCEEDED
  | NETWORK_ERROR
  | RATE_LIMIT
  | INVALID_LANGUAGE
  | TRANSLATION_FAILED
  | DOM_INJECTION_FAILED
  | DETECTION_FAILED
deriving DecidableEq

/-- TranslationError from src/background/translation-service.js: a typed error
carrying a message, a machine readable code and a retryable flag. -/
structure TranslationErr where
  message : String
  code : ErrorCode
  retryable : Bool
deriving DecidableEq

/-! ## JavaScript helpers

JavaScript uses the logical-or operator to supply defaults; its left operand is
replaced by the default when it is falsy (undefined, 0, or the empty string).
The three jsOr functions model that for optional numbers, rationals and strings. -/

/-- JavaScript expression (x || d) for an optional natural number x. -/
def jsOrNat (o : Option Nat) (d : Nat) : Nat :=
  match o with
  | some n => if n = 0 then d else n
  | none => d

/-- JavaScript expression (x || d) for an optional rational x. -/
def jsOrQ (o : Option ℚ) (d : ℚ) : ℚ :=
  match o with
  | some c => if c = 0 then d else c
  | none => d

/-- JavaScript expression (x || d) for an optional string x. -/
def jsOrStr (o : Option String) (d : String) : String :=
  match o with
  | some s => if s = "" then d else s
  | none => d

/-! ## handleAPIError (src/background/translation-service.js, lines 225-268)

The source is a switch on the HTTP status with cases 400, 401, 403, 429, 500,
502, 503, 504 and a default branch.  The error message is
errorData?.error?.message || the string Unknown error; we take the extracted
optional message as the argument. -/

/-- TranslationService.handleAPIError: classify an HTTP error status into a
typed error.  The switch in the source lists the statuses individually. -/
def handleAPIError (status : Nat) (errorData : Option String) : TranslationErr :=
  let errorMessage := jsOrStr errorData "Unknown error"
  if status = 400 then
    ⟨"Invalid request: " ++ errorMessage, ErrorCode.INVALID_LANGUAGE, false⟩
  else if status = 401 ∨ status = 403 then
    ⟨"Invalid API key", ErrorCode.API_KEY_INVALID, false⟩
  else if status = 429 then
    ⟨"Rate limit exceeded", ErrorCode.RATE_LIMIT, true⟩
  else if status = 500 ∨ status = 502 ∨ status = 503 ∨ status = 504 then
    ⟨"Google Translate service error", ErrorCode.NETWORK_ERROR, true⟩
  else
    ⟨errorMessage, ErrorCode.TRANSLATION_FAILED, false⟩

/-! ## Hashing and cache keys (shared utils: hashString, generateCacheKey)

The source computes, for each character code c,
hash = ((hash << 5) - hash) + c; hash = hash & hash, which keeps hash a signed
32-bit integer, and finally renders it in base 36 (with a leading minus sign
when negative, as Number.prototype.toString does for integer values). -/

/-- Wrap an integer to the signed 32-bit range, as the JavaScript bitwise
operators do. -/
def toInt32 (n : Int) : Int := (n + 2 ^ 31) % 2 ^ 32 - 2 ^ 31

/-- One step of the hash loop: hash = ((hash << 5) - hash) + charCode, forced
back to a signed 32-bit integer.  The shift itself also truncates to 32 bits. -/
def hashStep (hash : Int) (c : Nat) : Int :=
  toInt32 (toInt32 (hash * 32) - hash + c)

/-- Digit character for base 36 (0-9 then a-z), as JavaScript toString(36). -/
def base36Digit (d : Nat) : Char :=
  if d < 10 then Char.ofNat (48 + d) else Char.ofNat (87 + d)

/-- Base-36 digits of a natural number, most significant first.  The first
argument is fuel; it is always called with enough fuel (n + 1 suffices because
the argument strictly decreases by division by 36). -/
def natToBase36Aux : Nat → Nat → List Char
  | 0, _ => []
  | fuel + 1, n =>
    if n < 36 then [base36Digit n]
    else natToBase36Aux fuel (n / 36) ++ [base36Digit (n % 36)]

/-- Render a natural number in base 36. -/
def natToBase36 (n : Nat) : String := (natToBase36Aux (n + 1) n).asString

/-- Render an integer in base 36 with a leading minus sign when negative. -/
def intToBase36 (n : Int) : String :=
  if n < 0 then "-" ++ natToBase36 n.natAbs else natToBase36 n.toNat

/-- hashString from the shared utilities: fold the 32-bit hash step over the
character codes of the string, then render the result in base 36. -/
def hashString (s : String) : String :=
  intToBase36 (s.toList.foldl (fun h c => hashStep h c.toNat) 0)

/-- generateCacheKey from the shared utilities: the hash of the string
text|fromLang|toLang. -/
def generateCacheKey (text fromLang toLang : String) : String :=
  hashString (text ++ "|" ++ fromLang ++ "|" ++ toLang)

/-- isExpired from the shared utilities: Date.now() - timestamp > ttl.  With
natural numbers the subtraction truncates at zero, which agrees with the
JavaScript comparison for every positive ttl. -/
def isExpired (now timestamp ttl : Nat) : Bool := now - timestamp > ttl

/-! ## Translation cache (src/background/storage-manager.js, lines 280-337)

The persisted cache is a JavaScript object mapping cache keys to entries
{translation, timestamp, hits}.  We model it as an association list in
insertion order; assigning to an existing key keeps its position, assigning a
new key appends. -/

/-- One cache entry: {translation, timestamp, hits}. -/
structure CacheEntry where
  translation : String
  timestamp : Nat
  hits : Nat
deriving DecidableEq

/-- The persisted translation cache object. -/
abbrev Cache := List (String × CacheEntry)

/-- Object property lookup cache[key]. -/
def cacheFind (c : Cache) (key : String) : Option CacheEntry :=
  (c.find? (fun p => p.1 = key)).map (fun p => p.2)

/-- Object property assignment cache[key] = e: overwrite in place when the key
exists, append otherwise. -/
def cacheUpsert (c : Cache) (key : String) (e : CacheEntry) : Cache :=
  if c.any (fun p => p.1 = key) then
    c.map (fun p => if p.1 = key then (key, e) else p)
  else
    c ++ [(key, e)]

/-- StorageManager.getCachedTranslation: look up the fingerprint of
(text, fromLang, toLang); a missing entry, or an entry older than the TTL,
reads as a miss (expired entries are ignored, not purged). -/
def getCachedTranslation (now : Nat) (text fromLang toLang : String) (c : Cache) :
    Option String :=
  let key := generateCacheKey text fromLang toLang
  match cacheFind c key with
  | none => none
  | some cached =>
    if isExpired now cached.timestamp TTL_MS then none else some cached.translation

/-- Comparator used by evictOldestCacheEntries: ascending creation timestamp. -/
def byTimestamp (a b : String × CacheEntry) : Bool :=
  a.2.timestamp ≤ b.2.timestamp

/-- StorageManager.evictOldestCacheEntries: sort the entries by ascending
timestamp and keep everything after the first count entries. -/
def evictOldestCacheEntries (c : Cache) (count : Nat) : Cache :=
  (c.mergeSort byTimestamp).drop count

/-- The insertion step of StorageManager.setCachedTranslation: upsert the entry
under the fingerprint with the current timestamp and an incremented hit
counter ((cache[key]?.hits || 0) + 1). -/
def insertCacheEntry (now : Nat) (text fromLang toLang translation : String)
    (c : Cache) : Cache :=
  let key := generateCacheKey text fromLang toLang
  let prevHits := ((cacheFind c key).map (fun e => e.hits)).getD 0
  cacheUpsert c key ⟨translation, now, prevHits + 1⟩

/-- StorageManager.setCachedTranslation: insert, then, when the entry count
exceeds MAX_ENTRIES, evict the EVICTION_COUNT oldest entries in one pass. -/
def setCachedTranslation (now : Nat) (text fromLang toLang translation : String)
    (c : Cache) : Cache :=
  let c1 := insertCacheEntry now text fromLang toLang translation c
  if c1.length > MAX_ENTRIES then evictOldestCacheEntries c1 EVICTION_COUNT else c1

/-! ## sanitizeText (shared utils)

The source removes complete HTML tags with the regular expression <[^>]*> ,
decodes six HTML entities with successive global replacements, trims
whitespace, and truncates to 5000 characters. -/

/-- Tag-stripping automaton.  The second argument is none outside a tag and
some buffer (reversed) after an unmatched opening angle bracket.  A closing
bracket discards the buffered segment (the regex match); when the input ends
inside a tag the match failed, so the buffered text is kept verbatim. -/
def stripTagsGo : List Char → Option (List Char) → List Char
  | [], none => []
  | [], some buf => '<' :: buf.reverse
  | c :: rest, none =>
    if c = '<' then stripTagsGo rest (some []) else c :: stripTagsGo rest none
  | c :: rest, some buf =>
    if c = '>' then stripTagsGo rest none else stripTagsGo rest (some (c :: buf))

/-- Remove every complete tag, i.e. the global matches of <[^>]*> . -/
def stripTags (cs : List Char) : List Char := stripTagsGo cs none

/-- Global, left-to-right, non-overlapping replacement of a literal pattern,
as String.prototype.replace with a global literal regex.  The first argument is
fuel, always called with the length of the list, which suffices because each
step consumes at least one character. -/
def replaceSubAux (pat repl : List Char) : Nat → List Char → List Char
  | 0, cs => cs
  | _ + 1, [] => []
  | fuel + 1, c :: rest =>
    if pat ≠ [] ∧ pat.isPrefixOf (c :: rest) then
      repl ++ replaceSubAux pat repl fuel ((c :: rest).drop pat.length)
    else
      c :: replaceSubAux pat repl fuel rest

/-- Replace all occurrences of pat by repl. -/
def replaceSub (pat repl cs : List Char) : List Char :=
  replaceSubAux pat repl cs.length cs

/-- The whitespace characters trimmed by String.prototype.trim (ASCII
whitespace, vertical tab, form feed, no-break space, BOM and the Unicode line
separators; the uncommon further space characters are omitted, the claims never
touch them). -/
def isJsWhitespace (c : Char) : Bool :=
  c = ' ' ∨ c = Char.ofNat 9 ∨ c = Char.ofNat 10 ∨ c = Char.ofNat 13 ∨
  c = Char.ofNat 11 ∨ c = Char.ofNat 12 ∨ c = Char.ofNat 160 ∨
  c = Char.ofNat 0xFEFF ∨ c = Char.ofNat 0x2028 ∨ c = Char.ofNat 0x2029

/-- Trim whitespace from both ends. -/
def jsTrim (cs : List Char) : List Char :=
  ((cs.dropWhile isJsWhitespace).reverse.dropWhile isJsWhitespace).reverse

/-- sanitizeText from the shared utilities: strip tags, decode the six
entities in source order, trim, and truncate to maxLength (default 5000,
the only value used by the service). -/
def sanitizeText (text : String) : String :=
  let cs := stripTags text.toList
  let cs := replaceSub "&lt;".toList "<".toList cs
  let cs := replaceSub "&gt;".toList ">".toList cs
  let cs := replaceSub "&amp;".toList "&".toList cs
  let cs := replaceSub "&quot;".toList (Char.ofNat 34 :: []) cs
  let cs := replaceSub "&#39;".toList (Char.ofNat 39 :: []) cs
  let cs := replaceSub "&nbsp;".toList " ".toList cs
  ((jsTrim cs).take 5000).asString

/-! ## Quota tracking (src/background/storage-manager.js, lines 349-398)

The API configuration record persists the decrypted-view credential, the daily
quota counter, its reset date (an ISO date string) and the quota maximum.  The
credential is modelled as the optional plaintext the (out of scope) decryption
yields; the claims only observe its presence. -/

/-- The persisted API configuration (the fields the claims observe). -/
structure APIConfig where
  googleTranslateKey : Option String
  dailyQuotaUsed : Nat
  quotaResetDate : String
  maxDailyQuota : Nat
deriving DecidableEq

/-- The value returned by the quota operations:
{used, max, percentage}.  The percentage is the rational
used / max * 100 (JavaScript computes it in floating point). -/
structure QuotaStatus where
  used : Nat
  max : Nat
  percentage : ℚ
deriving DecidableEq

/-- StorageManager.trackQuotaUsage: zero the counter and stamp today when the
stored reset date differs from today, add the character count, persist, and
return the persisted state.  Returns the new configuration together with the
returned status. -/
def trackQuotaUsage (today : String) (characterCount : Nat) (config : APIConfig) :
    APIConfig × QuotaStatus :=
  let c1 :=
    if config.quotaResetDate ≠ today then
      { config with dailyQuotaUsed := 0, quotaResetDate := today }
    else config
  let c2 := { c1 with dailyQuotaUsed := c1.dailyQuotaUsed + characterCount }
  (c2, ⟨c2.dailyQuotaUsed, c2.maxDailyQuota,
        (c2.dailyQuotaUsed : ℚ) / (c2.maxDailyQuota : ℚ) * 100⟩)

/-- StorageManager.getQuotaStatus: a read-only view; on a new day it reports
zero usage without touching the stored configuration.  The configuration is
returned unchanged to make the frame property explicit. -/
def getQuotaStatus (today : String) (config : APIConfig) : QuotaStatus × APIConfig :=
  if config.quotaResetDate ≠ today then
    (⟨0, config.maxDailyQuota, 0⟩, config)
  else
    (⟨config.dailyQuotaUsed, config.maxDailyQuota,
      (config.dailyQuotaUsed : ℚ) / (config.maxDailyQuota : ℚ) * 100⟩, config)

/-! ## Translation service (src/background/translation-service.js)

The singleton service holds the consecutive-failure counter and the breaker
flag.  The setTimeout scheduled when the breaker opens is modelled by the
timerAt field: the absolute time at which the pending callback fires; the
timerFire transition below is that callback, an event independent of any
in-flight call.  Side effects observed by the claims are recorded in a trace. -/

/-- Observable side effects of one translate call, in order. -/
inductive Effect where
  | cacheLookup
  | credentialRead
  | quotaRead
  | networkAttempt (attempt : Nat)
  | sleepMs (ms : Nat)
  | cacheWrite
  | quotaWrite
deriving DecidableEq

/-- Mutable fields of the TranslationService singleton, plus the pending
breaker timer. -/
structure ServiceState where
  failureCount : Nat
  circuitOpen : Bool
  timerAt : Option Nat
deriving DecidableEq

/-- The persisted storage the translate flow touches. -/
structure Store where
  translationCache : Cache
  api : APIConfig
deriving DecidableEq

/-- The environment of one translate call: the clock, the current ISO date,
the network (outcome of the attempt with the given number), and whether the
two storage writes fail internally (both swallow their own errors). -/
structure TranslateEnv where
  now : Nat
  today : String
  net : Nat → Except TranslationErr String
  cacheWriteFails : Bool
  quotaWriteFails : Bool

/-- The value translate resolves with on success. -/
structure TranslateOk where
  translatedText : String
  fromCache : Bool
deriving DecidableEq

/-- The full outcome of one translate call. -/
structure TranslateOutcome where
  result : Except TranslationErr TranslateOk
  state : ServiceState
  store : Store
  trace : List Effect

/-- TranslationService.handleError (lines 273-290): increment the
consecutive-failure counter; at the threshold open the breaker and schedule
the auto-close callback TIMEOUT_MS from now. -/
def handleError (now : Nat) (s : ServiceState) : ServiceState :=
  let fc := s.failureCount + 1
  if fc ≥ THRESHOLD then
    { failureCount := fc, circuitOpen := true, timerAt := some (now + TIMEOUT_MS) }
  else
    { s with failureCount := fc }

/-- The deferred setTimeout callback scheduled by handleError: when its due
time has arrived it closes the breaker and resets the failure counter,
independent of any in-flight call. -/
def timerFire (now : Nat) (s : ServiceState) : ServiceState :=
  match s.timerAt with
  | some t => if t ≤ now then ⟨0, false, none⟩ else s
  | none => s

/-- Recursion core of translateWithRetry.  The fuel argument equals
RETRY_ATTEMPTS - attempt, so that fuel zero is exactly the condition
attempt ≥ maxRetries under which the source stops retrying. -/
def translateWithRetryAux (net : Nat → Except TranslationErr String) :
    Nat → Nat → List Effect × Except TranslationErr String
  | fuel, attempt =>
    match net attempt with
    | Except.ok s => ([Effect.networkAttempt attempt], Except.ok s)
    | Except.error e =>
      match fuel with
      | 0 => ([Effect.networkAttempt attempt], Except.error e)
      | f + 1 =>
        if e.retryable then
          let delay := RETRY_DELAY_MS * 2 ^ (attempt - 1)
          let rest := translateWithRetryAux net f (attempt + 1)
          (Effect.networkAttempt attempt :: Effect.sleepMs delay :: rest.1, rest.2)
        else
          ([Effect.networkAttempt attempt], Except.error e)

/-- TranslationService.translateWithRetry (lines 175-220): issue the network
call; on a retryable failure with attempt < maxRetries sleep
retryDelay * 2 ^ (attempt - 1) milliseconds and retry with attempt + 1;
otherwise propagate the error.  Attempts are numbered from 1 as in the
source (the default argument), so the type-level truncation in the exponent
never triggers. -/
def translateWithRetry (net : Nat → Except TranslationErr String) (attempt : Nat) :
    List Effect × Except TranslationErr String :=
  translateWithRetryAux net (RETRY_ATTEMPTS - attempt) attempt

/-- TranslationService.translate (lines 33-118).  The breaker check precedes
the try block, so its fail-fast throw bypasses handleError; every error raised
inside the try block reaches the catch and is recorded by handleError.  On the
cache hit path the method returns directly, without resetting the failure
counter.  On network success the result is cached, quota is tracked (both
writes swallow their own storage failures), and the failure counter is set to
zero. -/
def translate (env : TranslateEnv) (s : ServiceState) (st : Store)
    (text fromLang toLang : String) : TranslateOutcome :=
  if s.circuitOpen then
    ⟨Except.error ⟨"Service temporarily unavailable", ErrorCode.RATE_LIMIT, true⟩,
     s, st, []⟩
  else
    let cleanText := sanitizeText text
    if cleanText = "" then
      ⟨Except.error ⟨"Empty text provided", ErrorCode.TRANSLATION_FAILED, false⟩,
       handleError env.now s, st, []⟩
    else
      match getCachedTranslation env.now cleanText fromLang toLang st.translationCache with
      | some cached =>
        ⟨Except.ok ⟨cached, true⟩, s, st, [Effect.cacheLookup]⟩
      | none =>
        match st.api.googleTranslateKey with
        | none =>
          ⟨Except.error ⟨"API key not configured", ErrorCode.API_KEY_MISSING, false⟩,
           handleError env.now s, st, [Effect.cacheLookup, Effect.credentialRead]⟩
        | some _ =>
          let quotaStatus := (getQuotaStatus env.today st.api).1
          if quotaStatus.used ≥ quotaStatus.max then
            ⟨Except.error ⟨"Daily quota exceeded", ErrorCode.QUOTA_EXCEEDED, false⟩,
             handleError env.now s, st,
             [Effect.cacheLookup, Effect.credentialRead, Effect.quotaRead]⟩
          else
            let attempt := translateWithRetry env.net 1
            match attempt.2 with
            | Except.error e =>
              ⟨Except.error e, handleError env.now s, st,
               [Effect.cacheLookup, Effect.credentialRead, Effect.quotaRead] ++ attempt.1⟩
            | Except.ok translation =>
              let cache1 :=
                if env.cacheWriteFails then st.translationCache
                else setCachedTranslation env.now cleanText fromLang toLang translation
                       st.translationCache
              let api1 :=
                if env.quotaWriteFails then st.api
                else (trackQuotaUsage env.today cleanText.length st.api).1
              ⟨Except.ok ⟨translation, false⟩,
               { s with failureCount := 0 }, ⟨cache1, api1⟩,
               [Effect.cacheLookup, Effect.credentialRead, Effect.quotaRead] ++
                 attempt.1 ++ [Effect.cacheWrite, Effect.quotaWrite]⟩

/-! ## Language detector (src/background/language-detector.js)

The detector runs a priority-ordered strategy chain; each strategy either
yields a DetectionResult or nothing (a thrown strategy is caught and treated
as nothing by the loop).  For getLanguageWithFallback the individual strategy
outcomes are the environment: the chain itself, the saved-language lookup, the
threshold test, the persistence and the settings fallback are embedded from
the source. -/

/-- A detection result {language, confidence, method}. -/
structure DetectionResult where
  language : String
  confidence : ℚ
  method : String
deriving DecidableEq

/-- The detector confidence threshold (constructor of LanguageDetector). -/
def confidenceThreshold : ℚ := 8 / 10

/-- The per-site configuration record persisted by the storage manager (the
fields getSavedLanguageForSite reads). -/
structure SiteConfig where
  chatLanguage : Option String
  detectionConfidence : Option ℚ
  lastDetected : Option String
deriving DecidableEq

/-- LanguageDetector.detectChatLanguage: walk the ordered strategy outcomes
and return the first one whose confidence meets the threshold; with no such
outcome return nothing. -/
def detectChatLanguage (strategies : List (Option DetectionResult)) :
    Option DetectionResult :=
  match strategies with
  | [] => none
  | s :: rest =>
    match s with
    | some r =>
      if r.confidence ≥ confidenceThreshold then some r
      else detectChatLanguage rest
    | none => detectChatLanguage rest

/-- LanguageDetector.getSavedLanguageForSite: when a site configuration with a
truthy chatLanguage exists, return it with method saved and confidence
detectionConfidence || 0.9. -/
def getSavedLanguageForSite (siteConfig : Option SiteConfig) :
    Option DetectionResult :=
  match siteConfig with
  | none => none
  | some c =>
    match c.chatLanguage with
    | none => none
    | some lang =>
      if lang = "" then none
      else some ⟨lang, jsOrQ c.detectionConfidence (9 / 10), "saved"⟩

/-- The outcome of getLanguageWithFallback: the returned result, the detection
persisted for the site by saveDetectionForSite (if any), and whether the
strategy chain was invoked at all. -/
structure FallbackOutcome where
  result : DetectionResult
  persisted : Option DetectionResult
  ranStrategies : Bool
deriving DecidableEq

/-- LanguageDetector.getLanguageWithFallback (lines 303-326): a saved per-site
detection is returned immediately; otherwise the strategy chain runs and a
result meeting the threshold is persisted for the site and returned; otherwise
the configured default chat language (settings.defaultChatLanguage || the
string es) is returned with confidence 0.5 and method fallback. -/
def getLanguageWithFallback (siteConfig : Option SiteConfig)
    (strategies : List (Option DetectionResult))
    (defaultChatLanguage : Option String) : FallbackOutcome :=
  match getSavedLanguageForSite siteConfig with
  | some saved => ⟨saved, none, false⟩
  | none =>
    match detectChatLanguage strategies with
    | some detected =>
      if detected.confidence ≥ confidenceThreshold then
        ⟨detected, some detected, true⟩
      else
        ⟨⟨jsOrStr defaultChatLanguage "es", 1 / 2, "fallback"⟩, none, true⟩
    | none =>
      ⟨⟨jsOrStr defaultChatLanguage "es", 1 / 2, "fallback"⟩, none, true⟩

-- Except carries no DecidableEq instance by default; translate outcomes are
-- compared on concrete inputs, so derive one.
deriving instance DecidableEq for Except

/-- Predicate picking the network attempts out of an effect trace. -/
def isNetworkAttempt : Effect → Bool
  | Effect.networkAttempt _ => true
  | _ => false

/-- A concrete over-full cache used to exercise the eviction pass: 1001
entries with distinct keys and creation timestamps 0 through 1000. -/
def bigCache : Cache :=
  (List.range 1001).map (fun i => (natToBase36 i, ⟨"t", i, 1⟩))

end ChatTranslator

namespace ChatTranslator

set_option maxRecDepth 40000

/-! ## Helper lemmas -/

/-- handleError always increments the failure counter by exactly one. -/
theorem handleError_failureCount (now : Nat) (s : ServiceState) :
    (handleError now s).failureCount = s.failureCount + 1 := by
  simp only [handleError]
  split <;> rfl

/-- Property lookup after an upsert under the same key yields the new entry. -/
theorem cacheFind_cacheUpsert (c : Cache) (key : String) (e : CacheEntry) :
    cacheFind (cacheUpsert c key e) key = some e := by
  induction c with
  | nil => simp [cacheUpsert, cacheFind]
  | cons p rest ih =>
    by_cases hp : p.1 = key
    · simp [cacheUpsert, cacheFind, hp]
    · by_cases hrest : rest.any (fun q => q.1 = key)
      · have hall : (p :: rest).any (fun q => q.1 = key) = true := by
          simp [List.any_cons, hrest]
        simp only [cacheUpsert, hall, if_true, List.map_cons, if_neg hp]
        have ih2 := ih
        simp only [cacheUpsert, hrest, if_true] at ih2
        simp [cacheFind, hp] at ih2 ⊢
        exact ih2
      · have hall : (p :: rest).any (fun q => q.1 = key) = false := by
          simp [List.any_cons, hrest]
          simpa using hp
        have ih2 := ih
        simp only [cacheUpsert, hrest, if_false, Bool.false_eq_true] at ih2
        simp only [cacheUpsert, hall, Bool.false_eq_true, if_false, List.cons_append]
        simp [cacheFind, hp] at ih2 ⊢
        exact ih2

/-- The success path of translate: breaker closed, nonempty sanitized text,
cache miss, credential present, quota below the maximum, and a network success
yield the translated text with fromCache false and reset the failure counter;
the internal storage-write failure flags do not influence either. -/
theorem translate_success_path (env : TranslateEnv) (s : ServiceState) (st : Store)
    (text fromLang toLang translation apiKey : String)
    (hopen : s.circuitOpen = false)
    (hclean : sanitizeText text ≠ "")
    (hmiss : getCachedTranslation env.now (sanitizeText text) fromLang toLang
               st.translationCache = none)
    (hkey : st.api.googleTranslateKey = some apiKey)
    (hquota : ((getQuotaStatus env.today st.api).1.used <
               (getQuotaStatus env.today st.api).1.max))
    (hnet : (translateWithRetry env.net 1).2 = Except.ok translation) :
    (translate env s st text fromLang toLang).result = Except.ok ⟨translation, false⟩ ∧
    (translate env s st text fromLang toLang).state = { s with failureCount := 0 } := by
  have hq : ¬ ((getQuotaStatus env.today st.api).1.used ≥
               (getQuotaStatus env.today st.api).1.max) := by omega
  simp [translate, hopen, hclean, hmiss, hkey, hq, hnet]

/-! ## Claim C2: HTTP error classification -/

/-- Claim C2 counterexample: status 501 lies in the 5xx range, but
handleAPIError classifies it through the default branch as TRANSLATION_FAILED
and non-retryable, not as NETWORK_ERROR retryable; the switch only lists the
statuses 500, 502, 503 and 504. -/
theorem handleAPIError_5xx_counterexample :
    500 ≤ 501 ∧ 501 ≤ 599 ∧
    handleAPIError 501 (some "boom") = ⟨"boom", ErrorCode.TRANSLATION_FAILED, false⟩ ∧
    (handleAPIError 501 (some "boom")).code ≠ ErrorCode.NETWORK_ERROR ∧
    (handleAPIError 501 (some "boom")).retryable = false := by
  decide

/-- Claim C2 (amended): for every HTTP error status, 400 maps to
INVALID_LANGUAGE non-retryable; 401 and 403 map to API_KEY_INVALID
non-retryable; 429 maps to RATE_LIMIT retryable; the four listed server
statuses 500, 502, 503 and 504 (not the whole 5xx range) map to NETWORK_ERROR
retryable; and every other status, including the remaining 5xx statuses, maps
to TRANSLATION_FAILED non-retryable. -/
theorem handleAPIError_classification (status : Nat) (errorData : Option String) :
    (status = 400 →
      (handleAPIError status errorData).code = ErrorCode.INVALID_LANGUAGE ∧
      (handleAPIError status errorData).retryable = false) ∧
    (status = 401 ∨ status = 403 →
      (handleAPIError status errorData).code = ErrorCode.API_KEY_INVALID ∧
      (handleAPIError status errorData).retryable = false) ∧
    (status = 429 →
      (handleAPIError status errorData).code = ErrorCode.RATE_LIMIT ∧
      (handleAPIError status errorData).retryable = true) ∧
    (status = 500 ∨ status = 502 ∨ status = 503 ∨ status = 504 →
      (handleAPIError status errorData).code = ErrorCode.NETWORK_ERROR ∧
      (handleAPIError status errorData).retryable = true) ∧
    (status ∉ ([400, 401, 403, 429, 500, 502, 503, 504] : List Nat) →
      (handleAPIError status errorData).code = ErrorCode.TRANSLATION_FAILED ∧
      (handleAPIError status errorData).retryable = false) := by
  refine ⟨?_, ?_, ?_, ?_, ?_⟩ <;> intro h
  · subst h; simp [handleAPIError]
  · rcases h with h | h <;> subst h <;> simp [handleAPIError]
  · subst h; simp [handleAPIError]
  · rcases h with h | h | h | h <;> subst h <;> simp [handleAPIError]
  · simp only [List.mem_cons, List.not_mem_nil, or_false, not_or] at h
    obtain ⟨h400, h401, h403, h429, h500, h502, h503, h504⟩ := h
    simp [handleAPIError, h400, h401, h403, h429, h500, h502, h503, h504]

/-- Claim C2 witness: the amended classification evaluated at the statuses
400, 401, 429, 502 and 418. -/
theorem handleAPIError_classification_witness :
    ((handleAPIError 400 (some "m")).code = ErrorCode.INVALID_LANGUAGE ∧
     (handleAPIError 400 (some "m")).retryable = false) ∧
    ((handleAPIError 401 (some "m")).code = ErrorCode.API_KEY_INVALID ∧
     (handleAPIError 401 (some "m")).retryable = false) ∧
    ((handleAPIError 429 (some "m")).code = ErrorCode.RATE_LIMIT ∧
     (handleAPIError 429 (some "m")).retryable = true) ∧
    ((handleAPIError 502 (some "m")).code = ErrorCode.NETWORK_ERROR ∧
     (handleAPIError 502 (some "m")).retryable = true) ∧
    ((handleAPIError 418 (some "m")).code = ErrorCode.TRANSLATION_FAILED ∧
     (handleAPIError 418 (some "m")).retryable = false) :=
  ⟨(handleAPIError_classification 400 (some "m")).1 rfl,
   (handleAPIError_classification 401 (some "m")).2.1 (Or.inl rfl),
   (handleAPIError_classification 429 (some "m")).2.2.1 rfl,
   (handleAPIError_classification 502 (some "m")).2.2.2.1 (Or.inr (Or.inl rfl)),
   (handleAPIError_classification 418 (some "m")).2.2.2.2 (by decide)⟩

/-! ## Claim C4: retry with exponential backoff -/

/-- One-step equation of the retry recursion: a network success ends the loop
at any fuel. -/
theorem twrAux_ok (net : Nat → Except TranslationErr String) (f a : Nat) (s : String)
    (h : net a = Except.ok s) :
    translateWithRetryAux net f a = ([Effect.networkAttempt a], Except.ok s) := by
  rw [translateWithRetryAux.eq_def]
  dsimp only
  rw [h]

/-- One-step equation of the retry recursion: with fuel exhausted (that is,
attempt ≥ maxRetries) any failure propagates. -/
theorem twrAux_zero (net : Nat → Except TranslationErr String) (a : Nat)
    (e : TranslationErr) (h : net a = Except.error e) :
    translateWithRetryAux net 0 a = ([Effect.networkAttempt a], Except.error e) := by
  rw [translateWithRetryAux.eq_def]
  dsimp only
  rw [h]

/-- One-step equation of the retry recursion: a retryable failure with fuel
left sleeps the exponential backoff delay and continues with the next attempt
number. -/
theorem twrAux_retry (net : Nat → Except TranslationErr String) (f a : Nat)
    (e : TranslationErr) (h : net a = Except.error e) (hr : e.retryable = true) :
    translateWithRetryAux net (f + 1) a =
      (Effect.networkAttempt a :: Effect.sleepMs (RETRY_DELAY_MS * 2 ^ (a - 1)) ::
         (translateWithRetryAux net f (a + 1)).1,
       (translateWithRetryAux net f (a + 1)).2) := by
  rw [translateWithRetryAux.eq_def]
  dsimp only
  rw [h]
  simp [hr]

/-- One-step equation of the retry recursion: a non-retryable failure
propagates at any fuel. -/
theorem twrAux_fatal (net : Nat → Except TranslationErr String) (f a : Nat)
    (e : TranslationErr) (h : net a = Except.error e) (hr : e.retryable = false) :
    translateWithRetryAux net f a = ([Effect.networkAttempt a], Except.error e) := by
  cases f with
  | zero =>
    rw [translateWithRetryAux.eq_def]
    dsimp only
    rw [h]
  | succ f =>
    rw [translateWithRetryAux.eq_def]
    dsimp only
    rw [h]
    simp [hr]

/-- Each recursion step of the retry loop performs one network attempt, so a
run with the given fuel performs at most fuel + 1 attempts. -/
theorem translateWithRetryAux_attempt_bound (net : Nat → Except TranslationErr String) :
    ∀ fuel attempt,
      ((translateWithRetryAux net fuel attempt).1.countP isNetworkAttempt) ≤ fuel + 1 := by
  intro fuel
  induction fuel with
  | zero =>
    intro attempt
    cases hn : net attempt with
    | ok s => simp [twrAux_ok net 0 attempt s hn, isNetworkAttempt]
    | error e => simp [twrAux_zero net attempt e hn, isNetworkAttempt]
  | succ f ih =>
    intro attempt
    cases hn : net attempt with
    | ok s => simp [twrAux_ok net (f + 1) attempt s hn, isNetworkAttempt]
    | error e =>
      by_cases hr : e.retryable
      · have := ih (attempt + 1)
        rw [twrAux_retry net f attempt e hn hr]
        simp [List.countP_cons, isNetworkAttempt]
        omega
      · simp [twrAux_fatal net (f + 1) attempt e hn (by simpa using hr), isNetworkAttempt]

/-- Claim C4: for every attempt number n from 1, a retryable failure with
n < maxRetries (3) sleeps exactly RETRY_DELAY_MS * 2 ^ (n - 1) milliseconds
and continues as the call with attempt n + 1; a failure on attempt 3
propagates without a further attempt even when retryable; a non-retryable
failure propagates immediately at any attempt; and a call starting at
attempt 1 performs at most 3 network attempts. -/
theorem translateWithRetry_backoff (net : Nat → Except TranslationErr String) :
    (∀ n e, 1 ≤ n → n < RETRY_ATTEMPTS → net n = Except.error e → e.retryable = true →
      translateWithRetry net n =
        (Effect.networkAttempt n :: Effect.sleepMs (RETRY_DELAY_MS * 2 ^ (n - 1)) ::
           (translateWithRetry net (n + 1)).1,
         (translateWithRetry net (n + 1)).2)) ∧
    (∀ e, net RETRY_ATTEMPTS = Except.error e →
      translateWithRetry net RETRY_ATTEMPTS =
        ([Effect.networkAttempt RETRY_ATTEMPTS], Except.error e)) ∧
    (∀ n e, net n = Except.error e → e.retryable = false →
      translateWithRetry net n = ([Effect.networkAttempt n], Except.error e)) ∧
    (translateWithRetry net 1).1.countP isNetworkAttempt ≤ RETRY_ATTEMPTS := by
  refine ⟨?_, ?_, ?_, ?_⟩
  · intro n e h1 h3 hn hr
    have hf : RETRY_ATTEMPTS - n = (RETRY_ATTEMPTS - (n + 1)) + 1 := by
      simp only [RETRY_ATTEMPTS] at h3 ⊢
      omega
    simp only [translateWithRetry, hf]
    exact twrAux_retry net (RETRY_ATTEMPTS - (n + 1)) n e hn hr
  · intro e hn
    simp only [translateWithRetry, Nat.sub_self]
    exact twrAux_zero net RETRY_ATTEMPTS e hn
  · intro n e hn hr
    simp only [translateWithRetry]
    exact twrAux_fatal net (RETRY_ATTEMPTS - n) n e hn hr
  · have := translateWithRetryAux_attempt_bound net (RETRY_ATTEMPTS - 1) 1
    simp only [translateWithRetry]
    simp only [RETRY_ATTEMPTS] at this ⊢
    omega

/-- Claim C4 witness: under a network that fails retryably on attempts 1 and 2
and succeeds on attempt 3, the call sleeps 1000 ms then 2000 ms and performs
exactly three attempts; under an immediately fatal network the call stops
after one attempt. -/
theorem translateWithRetry_backoff_witness :
    (translateWithRetry
        (fun n => if n < 3 then Except.error ⟨"Rate limit exceeded", ErrorCode.RATE_LIMIT, true⟩
                  else Except.ok "hola") 1 =
      (Effect.networkAttempt 1 :: Effect.sleepMs 1000 ::
         (translateWithRetry
           (fun n => if n < 3 then Except.error ⟨"Rate limit exceeded", ErrorCode.RATE_LIMIT, true⟩
                     else Except.ok "hola") 2).1,
       (translateWithRetry
           (fun n => if n < 3 then Except.error ⟨"Rate limit exceeded", ErrorCode.RATE_LIMIT, true⟩
                     else Except.ok "hola") 2).2)) ∧
    (translateWithRetry
        (fun _ => Except.error ⟨"Invalid API key", ErrorCode.API_KEY_INVALID, false⟩) 2 =
      ([Effect.networkAttempt 2],
       Except.error ⟨"Invalid API key", ErrorCode.API_KEY_INVALID, false⟩)) ∧
    (translateWithRetry
        (fun _ => Except.error ⟨"Rate limit exceeded", ErrorCode.RATE_LIMIT, true⟩) 3 =
      ([Effect.networkAttempt 3],
       Except.error ⟨"Rate limit exceeded", ErrorCode.RATE_LIMIT, true⟩)) :=
  ⟨(translateWithRetry_backoff _).1 1
     ⟨"Rate limit exceeded", ErrorCode.RATE_LIMIT, true⟩
     (by decide) (by decide) (by decide) (by decide),
   (translateWithRetry_backoff _).2.2.1 2
     ⟨"Invalid API key", ErrorCode.API_KEY_INVALID, false⟩ rfl rfl,
   (translateWithRetry_backoff _).2.1
     ⟨"Rate limit exceeded", ErrorCode.RATE_LIMIT, true⟩ rfl⟩

/-! ## Claim C1: circuit breaker lifecycle -/

/-- Claim C1: when the consecutive-failure counter reaches the threshold 5 the
breaker opens and the auto-close callback is scheduled 60000 ms ahead; every
translate call made while the breaker is open fails immediately with a
rate-limit-coded retryable error, with an empty effect trace (no network
attempt, no cache lookup, no quota read) and unchanged state and storage; once
the cooldown has elapsed the pending callback closes the breaker and resets
the counter to 0, independent of any call; and a subsequent translate call on
the closed state proceeds normally (here: a call with a network success
returns the translation with the counter left at 0). -/
theorem circuitBreaker_lifecycle :
    (THRESHOLD = 5 ∧ TIMEOUT_MS = 60000) ∧
    (∀ now (s : ServiceState), s.failureCount + 1 ≥ THRESHOLD →
      handleError now s = ⟨s.failureCount + 1, true, some (now + TIMEOUT_MS)⟩) ∧
    (∀ env s st text fromLang toLang, s.circuitOpen = true →
      translate env s st text fromLang toLang =
        ⟨Except.error ⟨"Service temporarily unavailable", ErrorCode.RATE_LIMIT, true⟩,
         s, st, []⟩) ∧
    (∀ fireTime (s : ServiceState) t, s.timerAt = some t → t ≤ fireTime →
      timerFire fireTime s = ⟨0, false, none⟩) ∧
    (∀ env (s : ServiceState) st text fromLang toLang translation apiKey fireTime t,
      s.timerAt = some t → t ≤ fireTime →
      sanitizeText text ≠ "" →
      getCachedTranslation env.now (sanitizeText text) fromLang toLang
        st.translationCache = none →
      st.api.googleTranslateKey = some apiKey →
      (getQuotaStatus env.today st.api).1.used < (getQuotaStatus env.today st.api).1.max →
      (translateWithRetry env.net 1).2 = Except.ok translation →
      (translate env (timerFire fireTime s) st text fromLang toLang).result =
        Except.ok ⟨translation, false⟩ ∧
      (translate env (timerFire fireTime s) st text fromLang toLang).state.failureCount = 0) := by
  refine ⟨⟨rfl, rfl⟩, ?_, ?_, ?_, ?_⟩
  · intro now s h
    simp [handleError, h]
  · intro env s st text fromLang toLang h
    simp [translate, h]
  · intro fireTime s t h1 h2
    simp [timerFire, h1, h2]
  · intro env s st text fromLang toLang translation apiKey fireTime t h1 h2 hclean
      hmiss hkey hquota hnet
    have hs : timerFire fireTime s = ⟨0, false, none⟩ := by simp [timerFire, h1, h2]
    rw [hs]
    obtain ⟨hres, hstate⟩ :=
      translate_success_path env ⟨0, false, none⟩ st text fromLang toLang translation
        apiKey rfl hclean hmiss hkey hquota hnet
    exact ⟨hres, by rw [hstate]⟩

/-- Claim C1 witness: the breaker lifecycle evaluated on concrete data: the
fifth failure at time 100 opens the breaker until 60100; a call on the open
state fails fast with an empty trace; the callback due at 60000 firing at
60000 yields the closed zeroed state; and a subsequent call on that state
with a working network succeeds with the counter at 0. -/
theorem circuitBreaker_lifecycle_witness :
    (handleError 100 ⟨4, false, none⟩ = ⟨5, true, some 60100⟩) ∧
    (translate ⟨0, "d", fun _ => Except.ok "hola", false, false⟩ ⟨5, true, some 60000⟩
        ⟨[], ⟨some "k", 0, "d", 100⟩⟩ "hello" "en" "es" =
      ⟨Except.error ⟨"Service temporarily unavailable", ErrorCode.RATE_LIMIT, true⟩,
       ⟨5, true, some 60000⟩, ⟨[], ⟨some "k", 0, "d", 100⟩⟩, []⟩) ∧
    (timerFire 60000 ⟨5, true, some 60000⟩ = ⟨0, false, none⟩) ∧
    ((translate ⟨0, "d", fun _ => Except.ok "hola", false, false⟩
        (timerFire 60000 ⟨5, true, some 60000⟩)
        ⟨[], ⟨some "k", 0, "d", 100⟩⟩ "hello" "en" "es").result =
      Except.ok ⟨"hola", false⟩ ∧
     (translate ⟨0, "d", fun _ => Except.ok "hola", false, false⟩
        (timerFire 60000 ⟨5, true, some 60000⟩)
        ⟨[], ⟨some "k", 0, "d", 100⟩⟩ "hello" "en" "es").state.failureCount = 0) :=
  ⟨circuitBreaker_lifecycle.2.1 100 ⟨4, false, none⟩ (by decide),
   circuitBreaker_lifecycle.2.2.1 _ ⟨5, true, some 60000⟩ _ "hello" "en" "es" rfl,
   circuitBreaker_lifecycle.2.2.2.1 60000 ⟨5, true, some 60000⟩ 60000 rfl (by decide),
   circuitBreaker_lifecycle.2.2.2.2 ⟨0, "d", fun _ => Except.ok "hola", false, false⟩
     ⟨5, true, some 60000⟩ ⟨[], ⟨some "k", 0, "d", 100⟩⟩ "hello" "en" "es" "hola" "k"
     60000 60000 rfl (by decide) (by decide) (by decide) rfl (by decide) (by decide)⟩

/-! ## Claim C5: failure counter transitions -/

/-- Claim C5 counterexample: a translate call made while the breaker is open
fails, yet leaves the consecutive-failure counter unchanged at 5 instead of
incrementing it to 6 — the fail-fast throw happens before the try block, so
handleError never runs for it. -/
theorem failureCounter_failFast_counterexample :
    ((translate ⟨0, "d", fun _ => Except.ok "x", false, false⟩ ⟨5, true, some 60000⟩
        ⟨[], ⟨some "k", 0, "d", 100⟩⟩ "hello" "en" "es").result =
      Except.error ⟨"Service temporarily unavailable", ErrorCode.RATE_LIMIT, true⟩) ∧
    (translate ⟨0, "d", fun _ => Except.ok "x", false, false⟩ ⟨5, true, some 60000⟩
        ⟨[], ⟨some "k", 0, "d", 100⟩⟩ "hello" "en" "es").state.failureCount = 5 ∧
    (translate ⟨0, "d", fun _ => Except.ok "x", false, false⟩ ⟨5, true, some 60000⟩
        ⟨[], ⟨some "k", 0, "d", 100⟩⟩ "hello" "en" "es").state.failureCount ≠ 5 + 1 := by
  decide

/-- Claim C5 (amended): a failing translate call increments the
consecutive-failure counter by exactly one, except the fail-fast rejection
issued while the breaker is open, which leaves the counter unchanged; a call
that succeeds through the network path resets the counter to exactly zero,
while a call that succeeds from the cache leaves the counter unchanged. -/
theorem failureCounter_transitions (env : TranslateEnv) (s : ServiceState) (st : Store)
    (text fromLang toLang : String) :
    (s.circuitOpen = true →
      (∃ e, (translate env s st text fromLang toLang).result = Except.error e) ∧
      (translate env s st text fromLang toLang).state.failureCount = s.failureCount) ∧
    (s.circuitOpen = false →
      ∀ e, (translate env s st text fromLang toLang).result = Except.error e →
        (translate env s st text fromLang toLang).state.failureCount =
          s.failureCount + 1) ∧
    (∀ r, (translate env s st text fromLang toLang).result = Except.ok r →
      r.fromCache = false →
      (translate env s st text fromLang toLang).state.failureCount = 0) ∧
    (∀ r, (translate env s st text fromLang toLang).result = Except.ok r →
      r.fromCache = true →
      (translate env s st text fromLang toLang).state.failureCount = s.failureCount) := by
  by_cases hopen : s.circuitOpen
  · simp [translate, hopen]
  · simp only [Bool.not_eq_true] at hopen
    by_cases hclean : sanitizeText text = ""
    · simp [translate, hopen, hclean, handleError_failureCount]
    · cases hc : getCachedTranslation env.now (sanitizeText text) fromLang toLang
          st.translationCache with
      | some cached => simp [translate, hopen, hclean, hc]
      | none =>
        cases hk : st.api.googleTranslateKey with
        | none => simp [translate, hopen, hclean, hc, hk, handleError_failureCount]
        | some apiKey =>
          by_cases hq : (getQuotaStatus env.today st.api).1.used ≥
              (getQuotaStatus env.today st.api).1.max
          · simp [translate, hopen, hclean, hc, hk, hq, handleError_failureCount]
          · cases hn : (translateWithRetry env.net 1).2 with
            | error e =>
              simp [translate, hopen, hclean, hc, hk, hq, hn, handleError_failureCount]
            | ok translation =>
              simp [translate, hopen, hclean, hc, hk, hq, hn]

/-- Claim C5 witness: the transition relation evaluated on concrete calls: a
fail-fast rejection on an open breaker keeps the counter at 5; a network
success on a closed breaker with prior count 3 resets it to 0; a cache hit
keeps a prior count of 2. -/
theorem failureCounter_transitions_witness :
    ((translate ⟨0, "d", fun _ => Except.ok "x", false, false⟩ ⟨5, true, some 60000⟩
        ⟨[], ⟨some "k", 0, "d", 100⟩⟩ "hello" "en" "es").state.failureCount = 5) ∧
    ((translate ⟨0, "d", fun _ => Except.ok "hola", false, false⟩ ⟨3, false, none⟩
        ⟨[], ⟨some "k", 0, "d", 100⟩⟩ "hello" "en" "es").state.failureCount = 0) ∧
    ((translate ⟨0, "d", fun _ => Except.ok "x", false, false⟩ ⟨2, false, none⟩
        ⟨setCachedTranslation 0 "hello" "en" "es" "hola" [], ⟨some "k", 0, "d", 100⟩⟩
        "hello" "en" "es").state.failureCount = 2) :=
  ⟨((failureCounter_transitions _ ⟨5, true, some 60000⟩ _ "hello" "en" "es").1 rfl).2,
   (failureCounter_transitions _ ⟨3, false, none⟩ _ "hello" "en" "es").2.2.1
     ⟨"hola", false⟩ (by decide) rfl,
   (failureCounter_transitions _ ⟨2, false, none⟩ _ "hello" "en" "es").2.2.2
     ⟨"hola", true⟩ (by decide) rfl⟩

/-! ## Claim C7: quota rollover -/

/-- Claim C7: with a stored reset date different from today, getQuotaStatus
reports zero usage (and percentage 0) while leaving the persisted
configuration completely unchanged, whereas trackQuotaUsage first zeroes the
counter and stamps today, then adds the new amount, persists exactly that
state and returns it; with the stored reset date equal to today,
getQuotaStatus reports the stored usage unchanged. -/
theorem quota_rollover (today : String) (config : APIConfig) (n : Nat) :
    (config.quotaResetDate ≠ today →
      getQuotaStatus today config = (⟨0, config.maxDailyQuota, 0⟩, config)) ∧
    (config.quotaResetDate ≠ today →
      trackQuotaUsage today n config =
        ({ config with dailyQuotaUsed := n, quotaResetDate := today },
         ⟨n, config.maxDailyQuota, (n : ℚ) / (config.maxDailyQuota : ℚ) * 100⟩)) ∧
    (config.quotaResetDate = today →
      (getQuotaStatus today config).1.used = config.dailyQuotaUsed ∧
      (getQuotaStatus today config).2 = config) := by
  refine ⟨?_, ?_, ?_⟩
  · intro h
    simp [getQuotaStatus, h]
  · intro h
    simp [trackQuotaUsage, h]
  · intro h
    simp [getQuotaStatus, h]

/-- Claim C7 witness: the rollover behaviour on a concrete configuration with
300 characters used on an earlier date and a new call tracking 40
characters, and the unchanged read on a matching date. -/
theorem quota_rollover_witness :
    (getQuotaStatus "2026-10-11" ⟨some "k", 300, "2026-10-10", 1000⟩ =
      (⟨0, 1000, 0⟩, ⟨some "k", 300, "2026-10-10", 1000⟩)) ∧
    (trackQuotaUsage "2026-10-11" 40 ⟨some "k", 300, "2026-10-10", 1000⟩ =
      (⟨some "k", 40, "2026-10-11", 1000⟩, ⟨40, 1000, (40 : ℚ) / (1000 : ℚ) * 100⟩)) ∧
    ((getQuotaStatus "2026-10-10" ⟨some "k", 300, "2026-10-10", 1000⟩).1.used = 300) :=
  ⟨(quota_rollover "2026-10-11" ⟨some "k", 300, "2026-10-10", 1000⟩ 40).1 (by decide),
   (quota_rollover "2026-10-11" ⟨some "k", 300, "2026-10-10", 1000⟩ 40).2.1 (by decide),
   ((quota_rollover "2026-10-10" ⟨some "k", 300, "2026-10-10", 1000⟩ 40).2.2 rfl).1⟩

/-! ## Claim C8: cache hit frame -/

/-- Claim C8 counterexample: a translate call whose sanitized text has a
fresh cache entry does not return the cached translation when the breaker is
open: the fail-fast check precedes the cache lookup, so the call fails with
the rate-limit error instead. -/
theorem cache_hit_open_breaker_counterexample :
    (getCachedTranslation 0 (sanitizeText "hello") "en" "es"
        (setCachedTranslation 0 "hello" "en" "es" "hola" []) = some "hola") ∧
    ((translate ⟨0, "d", fun _ => Except.ok "x", false, false⟩ ⟨5, true, some 60000⟩
        ⟨setCachedTranslation 0 "hello" "en" "es" "hola" [], ⟨some "k", 0, "d", 100⟩⟩
        "hello" "en" "es").result =
      Except.error ⟨"Service temporarily unavailable", ErrorCode.RATE_LIMIT, true⟩) := by
  decide

/-- Claim C8 (amended): provided the circuit breaker is not open and the
sanitized text is nonempty, a translate call whose sanitized text has a fresh
(non-expired) cache entry under (sanitized text, fromLang, toLang) returns
exactly that cached translation with fromCache true; its effect trace is the
single cache lookup — no network attempt, no credential read, no quota read
and no write — and both the service state and the whole persisted store
(including the quota state) are left unchanged. -/
theorem cache_hit_frame (env : TranslateEnv) (s : ServiceState) (st : Store)
    (text fromLang toLang cached : String)
    (hopen : s.circuitOpen = false)
    (hclean : sanitizeText text ≠ "")
    (hhit : getCachedTranslation env.now (sanitizeText text) fromLang toLang
              st.translationCache = some cached) :
    translate env s st text fromLang toLang =
      ⟨Except.ok ⟨cached, true⟩, s, st, [Effect.cacheLookup]⟩ := by
  simp [translate, hopen, hclean, hhit]

/-- Claim C8 witness: a concrete closed-breaker call on a store holding a
fresh entry for hello returns the cached translation, touches nothing, and
reports the single cache-lookup effect. -/
theorem cache_hit_frame_witness :
    translate ⟨0, "d", fun _ => Except.ok "x", false, false⟩ ⟨2, false, none⟩
        ⟨setCachedTranslation 0 "hello" "en" "es" "hola" [], ⟨some "k", 7, "d", 100⟩⟩
        "hello" "en" "es" =
      ⟨Except.ok ⟨"hola", true⟩, ⟨2, false, none⟩,
       ⟨setCachedTranslation 0 "hello" "en" "es" "hola" [], ⟨some "k", 7, "d", 100⟩⟩,
       [Effect.cacheLookup]⟩ :=
  cache_hit_frame ⟨0, "d", fun _ => Except.ok "x", false, false⟩ ⟨2, false, none⟩
    ⟨setCachedTranslation 0 "hello" "en" "es" "hola" [], ⟨some "k", 7, "d", 100⟩⟩
    "hello" "en" "es" "hola" rfl (by decide) (by decide)

/-! ## Claim C10: storage failures after a network success -/

/-- Claim C10: once the retrying API call has succeeded inside translate, a
storage failure while writing the cache entry or while persisting quota usage
never fails the call — setCachedTranslation swallows its storage errors and
trackQuotaUsage returns null instead of throwing — so for every combination
of the two write-failure flags the caller still receives the translated text
with fromCache false and the failure counter is still reset to zero. -/
theorem storage_failure_does_not_fail_success (now : Nat) (today : String)
    (net : Nat → Except TranslationErr String) (cacheWriteFails quotaWriteFails : Bool)
    (s : ServiceState) (st : Store) (text fromLang toLang translation apiKey : String)
    (hopen : s.circuitOpen = false)
    (hclean : sanitizeText text ≠ "")
    (hmiss : getCachedTranslation now (sanitizeText text) fromLang toLang
               st.translationCache = none)
    (hkey : st.api.googleTranslateKey = some apiKey)
    (hquota : (getQuotaStatus today st.api).1.used < (getQuotaStatus today st.api).1.max)
    (hnet : (translateWithRetry net 1).2 = Except.ok translation) :
    (translate ⟨now, today, net, cacheWriteFails, quotaWriteFails⟩ s st
        text fromLang toLang).result = Except.ok ⟨translation, false⟩ ∧
    (translate ⟨now, today, net, cacheWriteFails, quotaWriteFails⟩ s st
        text fromLang toLang).state.failureCount = 0 := by
  obtain ⟨hres, hstate⟩ :=
    translate_success_path ⟨now, today, net, cacheWriteFails, quotaWriteFails⟩ s st
      text fromLang toLang translation apiKey hopen hclean hmiss hkey hquota hnet
  exact ⟨hres, by rw [hstate]⟩

/-- Claim C10 witness: a concrete call with both storage writes failing still
returns the translation with fromCache false and counter 0. -/
theorem storage_failure_does_not_fail_success_witness :
    ((translate ⟨0, "d", fun _ => Except.ok "hola", true, true⟩ ⟨3, false, none⟩
        ⟨[], ⟨some "k", 0, "d", 100⟩⟩ "hello" "en" "es").result =
      Except.ok ⟨"hola", false⟩) ∧
    ((translate ⟨0, "d", fun _ => Except.ok "hola", true, true⟩ ⟨3, false, none⟩
        ⟨[], ⟨some "k", 0, "d", 100⟩⟩ "hello" "en" "es").state.failureCount = 0) :=
  storage_failure_does_not_fail_success 0 "d" (fun _ => Except.ok "hola") true true
    ⟨3, false, none⟩ ⟨[], ⟨some "k", 0, "d", 100⟩⟩ "hello" "en" "es" "hola" "k"
    rfl (by decide) (by decide) rfl (by decide) (by decide)

/-! ## Claim C9: language fallback priority -/

/-- The strategy chain only ever yields results meeting the confidence
threshold: it skips every lower-confidence outcome. -/
theorem detectChatLanguage_confidence (strategies : List (Option DetectionResult)) :
    ∀ d, detectChatLanguage strategies = some d → d.confidence ≥ confidenceThreshold := by
  induction strategies with
  | nil =>
    intro d h
    simp [detectChatLanguage] at h
  | cons s rest ih =>
    intro d h
    cases s with
    | none => exact ih d (by simpa [detectChatLanguage] using h)
    | some r =>
      by_cases hr : r.confidence ≥ confidenceThreshold
      · have : r = d := by simpa [detectChatLanguage, hr] using h
        exact this ▸ hr
      · exact ih d (by simpa [detectChatLanguage, hr] using h)

/-- Claim C9: getLanguageWithFallback is total (it is a Lean function, so it
always returns a result and never raises) and composes its sources in
priority order: a saved per-site detection is returned immediately, without
running any strategy and without persisting anything, and when no confidence
was recorded for it the saved confidence defaults to 0.9; otherwise a
strategy-chain result — which always carries confidence at least 0.8 — is
persisted for the site and returned; otherwise the configured default chat
language is returned with confidence 0.5 and method fallback, persisting
nothing. -/
theorem languageFallback_priority :
    (∀ siteConfig strategies defaultChatLanguage saved,
      getSavedLanguageForSite siteConfig = some saved →
      getLanguageWithFallback siteConfig strategies defaultChatLanguage =
        ⟨saved, none, false⟩) ∧
    (∀ (c : SiteConfig) strategies defaultChatLanguage lang,
      c.chatLanguage = some lang → lang ≠ "" → c.detectionConfidence = none →
      (getLanguageWithFallback (some c) strategies defaultChatLanguage).result =
        ⟨lang, 9 / 10, "saved"⟩) ∧
    (∀ strategies d, detectChatLanguage strategies = some d →
      d.confidence ≥ confidenceThreshold) ∧
    (∀ siteConfig strategies defaultChatLanguage d,
      getSavedLanguageForSite siteConfig = none →
      detectChatLanguage strategies = some d →
      getLanguageWithFallback siteConfig strategies defaultChatLanguage =
        ⟨d, some d, true⟩) ∧
    (∀ siteConfig strategies lang,
      getSavedLanguageForSite siteConfig = none →
      detectChatLanguage strategies = none → lang ≠ "" →
      getLanguageWithFallback siteConfig strategies (some lang) =
        ⟨⟨lang, 1 / 2, "fallback"⟩, none, true⟩) := by
  refine ⟨?_, ?_, ?_, ?_, ?_⟩
  · intro siteConfig strategies defaultChatLanguage saved h
    simp [getLanguageWithFallback, h]
  · intro c strategies defaultChatLanguage lang hl hne hconf
    have hsaved : getSavedLanguageForSite (some c) = some ⟨lang, 9 / 10, "saved"⟩ := by
      simp [getSavedLanguageForSite, hl, hne, hconf, jsOrQ]
    simp [getLanguageWithFallback, hsaved]
  · exact fun strategies d h => detectChatLanguage_confidence strategies d h
  · intro siteConfig strategies defaultChatLanguage d h1 h2
    have hth := detectChatLanguage_confidence strategies d h2
    simp [getLanguageWithFallback, h1, h2, hth]
  · intro siteConfig strategies lang h1 h2 hne
    simp [getLanguageWithFallback, h1, h2, jsOrStr, hne]

/-- Claim C9 witness: the priority order on concrete data: a saved detection
for a site is returned untouched; a saved language without recorded
confidence comes back with confidence 0.9; a page-metadata strategy result at
confidence 0.9 is persisted and returned when nothing is saved; and with only
a low-confidence strategy outcome the configured default language pt is
returned at confidence 0.5. -/
theorem languageFallback_priority_witness :
    (getLanguageWithFallback (some ⟨some "fr", some (85 / 100), some "x"⟩)
        [some ⟨"de", 9 / 10, "pageMetadata"⟩] (some "pt") =
      ⟨⟨"fr", 85 / 100, "saved"⟩, none, false⟩) ∧
    ((getLanguageWithFallback (some ⟨some "fr", none, none⟩) [] (some "pt")).result =
      ⟨"fr", 9 / 10, "saved"⟩) ∧
    (getLanguageWithFallback none [none, some ⟨"de", 9 / 10, "pageMetadata"⟩]
        (some "pt") =
      ⟨⟨"de", 9 / 10, "pageMetadata"⟩, some ⟨"de", 9 / 10, "pageMetadata"⟩, true⟩) ∧
    (getLanguageWithFallback none [some ⟨"de", 6 / 10, "urlPattern"⟩] (some "pt") =
      ⟨⟨"pt", 1 / 2, "fallback"⟩, none, true⟩) :=
  ⟨languageFallback_priority.1 (some ⟨some "fr", some (85 / 100), some "x"⟩)
     [some ⟨"de", 9 / 10, "pageMetadata"⟩] (some "pt") ⟨"fr", 85 / 100, "saved"⟩
     (by simp only [getSavedLanguageForSite, jsOrQ]; norm_num; simp),
   languageFallback_priority.2.1 ⟨some "fr", none, none⟩ [] (some "pt") "fr"
     rfl (by decide) rfl,
   languageFallback_priority.2.2.2.1 none [none, some ⟨"de", 9 / 10, "pageMetadata"⟩]
     (some "pt") ⟨"de", 9 / 10, "pageMetadata"⟩ rfl
     (by simp only [detectChatLanguage, confidenceThreshold]; norm_num),
   languageFallback_priority.2.2.2.2 none [some ⟨"de", 6 / 10, "urlPattern"⟩] "pt"
     rfl (by simp only [detectChatLanguage, confidenceThreshold]; norm_num) (by decide)⟩

/-! ## Claim C3: cache fingerprint round trip -/

/-- Claim C3 counterexample: the fingerprint is not injective on triples.  The
key joins the three fields with a pipe character, so the two distinct triples
(a|b, c, d) and (a, b|c, d) produce the same joined string and hence the same
fingerprint, and a lookup with the first triple returns the translation stored
under the second. -/
theorem cache_fingerprint_counterexample :
    (("a|b", "c", "d") ≠ (("a", "b|c", "d") : String × String × String)) ∧
    generateCacheKey "a|b" "c" "d" = generateCacheKey "a" "b|c" "d" ∧
    getCachedTranslation 0 "a|b" "c" "d"
      (setCachedTranslation 0 "a" "b|c" "d" "HOLA" []) = some "HOLA" := by
  decide

/-- Claim C3 (amended): a getCached lookup immediately after a putCached with
the identical triple returns exactly the stored translated text, provided the
entry is within the TTL and the insert did not trigger an eviction pass; the
fingerprints are however not injective — distinct triples can share a
fingerprint through the pipe separator or a hash collision, and then a lookup
with one triple returns the translation stored under the other — but whenever
the two fingerprints differ, a lookup with one triple never returns the
translation stored under the other. -/
theorem cache_fingerprint (now now2 : Nat)
    (text fromLang toLang translation text2 fromLang2 toLang2 : String) (c : Cache) :
    ((insertCacheEntry now text fromLang toLang translation c).length ≤ MAX_ENTRIES →
      now2 - now ≤ TTL_MS →
      getCachedTranslation now2 text fromLang toLang
        (setCachedTranslation now text fromLang toLang translation c) =
          some translation) ∧
    (generateCacheKey text2 fromLang2 toLang2 ≠ generateCacheKey text fromLang toLang →
      getCachedTranslation now2 text2 fromLang2 toLang2
        (setCachedTranslation now text fromLang toLang translation []) = none) := by
  constructor
  · intro hlen hfresh
    have hnoev : setCachedTranslation now text fromLang toLang translation c =
        insertCacheEntry now text fromLang toLang translation c := by
      simp only [setCachedTranslation]
      rw [if_neg (by omega)]
    rw [hnoev]
    simp only [insertCacheEntry, getCachedTranslation]
    rw [cacheFind_cacheUpsert]
    simp only [isExpired]
    rw [if_neg (by simp; omega)]
  · intro hne
    have h1 : setCachedTranslation now text fromLang toLang translation [] =
        [(generateCacheKey text fromLang toLang, ⟨translation, now, 1⟩)] := by
      simp [setCachedTranslation, insertCacheEntry, cacheUpsert, cacheFind, MAX_ENTRIES]
    rw [h1]
    simp [getCachedTranslation, cacheFind, Ne.symm hne]

/-- Claim C3 witness: storing hello under (en, es) and reading it back 5 ms
later returns the stored translation, while reading with the
different-fingerprint triple (world, en, es) misses. -/
theorem cache_fingerprint_witness :
    (getCachedTranslation 5 "hello" "en" "es"
        (setCachedTranslation 0 "hello" "en" "es" "hola" []) = some "hola") ∧
    (getCachedTranslation 5 "world" "en" "es"
        (setCachedTranslation 0 "hello" "en" "es" "hola" []) = none) :=
  ⟨(cache_fingerprint 0 5 "hello" "en" "es" "hola" "world" "en" "es" []).1
     (by decide) (by decide),
   (cache_fingerprint 0 5 "hello" "en" "es" "hola" "world" "en" "es" []).2
     (by decide)⟩

/-! ## Claim C6: batch eviction of the oldest entries -/

/-- Length of an object property assignment: unchanged for an existing key,
one more for a new key. -/
theorem cacheUpsert_length (c : Cache) (key : String) (e : CacheEntry) :
    (cacheUpsert c key e).length =
      if c.any (fun p => p.1 = key) then c.length else c.length + 1 := by
  simp only [cacheUpsert]
  split <;> simp

/-- The eviction comparator is transitive. -/
theorem byTimestamp_trans (a b d : String × CacheEntry)
    (h1 : byTimestamp a b = true) (h2 : byTimestamp b d = true) :
    byTimestamp a d = true := by
  simp only [byTimestamp, decide_eq_true_eq] at h1 h2 ⊢
  omega

/-- The eviction comparator is total. -/
theorem byTimestamp_total (a b : String × CacheEntry) :
    (byTimestamp a b || byTimestamp b a) = true := by
  simp only [byTimestamp, Bool.or_eq_true, decide_eq_true_eq]
  omega

/-- Claim C6: an insert that leaves the entry count at or below MAX_ENTRIES
(1000) removes nothing; an insert that pushes the count above 1000 removes in
one pass exactly EVICTION_COUNT (200) entries of the cache, each removed
entry having a creation timestamp at most that of every surviving entry — so
no newer entry is evicted while an older one remains — and keeps every other
entry (the removed entries together with the survivors are a permutation of
the cache after the insert). -/
theorem cache_eviction (now : Nat) (text fromLang toLang translation : String)
    (c : Cache) :
    ((insertCacheEntry now text fromLang toLang translation c).length ≤ MAX_ENTRIES →
      setCachedTranslation now text fromLang toLang translation c =
        insertCacheEntry now text fromLang toLang translation c) ∧
    ((insertCacheEntry now text fromLang toLang translation c).length > MAX_ENTRIES →
      ∃ removed,
        removed.length = EVICTION_COUNT ∧
        (removed ++ setCachedTranslation now text fromLang toLang translation c).Perm
          (insertCacheEntry now text fromLang toLang translation c) ∧
        (setCachedTranslation now text fromLang toLang translation c).length =
          (insertCacheEntry now text fromLang toLang translation c).length -
            EVICTION_COUNT ∧
        ∀ r ∈ removed,
          ∀ kept ∈ setCachedTranslation now text fromLang toLang translation c,
            r.2.timestamp ≤ kept.2.timestamp) := by
  constructor
  · intro hle
    simp only [setCachedTranslation]
    rw [if_neg (by omega)]
  · intro hgt
    have hset : setCachedTranslation now text fromLang toLang translation c =
        evictOldestCacheEntries
          (insertCacheEntry now text fromLang toLang translation c) EVICTION_COUNT := by
      simp only [setCachedTranslation]
      rw [if_pos hgt]
    refine ⟨((insertCacheEntry now text fromLang toLang translation c).mergeSort
        byTimestamp).take EVICTION_COUNT, ?_, ?_, ?_, ?_⟩
    · rw [List.length_take, List.length_mergeSort]
      simp only [MAX_ENTRIES] at hgt
      simp only [EVICTION_COUNT]
      omega
    · rw [hset]
      simp only [evictOldestCacheEntries]
      rw [List.take_append_drop]
      exact List.mergeSort_perm _ byTimestamp
    · rw [hset]
      simp only [evictOldestCacheEntries]
      rw [List.length_drop, List.length_mergeSort]
    · have hsorted :=
        List.sorted_mergeSort byTimestamp_trans byTimestamp_total
          (insertCacheEntry now text fromLang toLang translation c)
      have h2 : List.Pairwise (fun a b => byTimestamp a b = true)
          (((insertCacheEntry now text fromLang toLang translation c).mergeSort
              byTimestamp).take EVICTION_COUNT ++
           ((insertCacheEntry now text fromLang toLang translation c).mergeSort
              byTimestamp).drop EVICTION_COUNT) := by
        rw [List.take_append_drop]
        exact hsorted
      have h3 := (List.pairwise_append.mp h2).2.2
      intro r hr kept hk
      rw [hset] at hk
      simp only [evictOldestCacheEntries] at hk
      have := h3 r hr kept hk
      simpa [byTimestamp] using this

/-- Claim C6 witness: inserting a fresh entry into a cache of 1001 entries
exceeds the maximum, and the eviction pass removes exactly 200 entries, all
with timestamps at most those of the 802 survivors; a small insert into the
empty cache removes nothing. -/
theorem cache_eviction_witness :
    ((insertCacheEntry 2000 "hello" "en" "es" "hola" bigCache).length > MAX_ENTRIES) ∧
    (∃ removed,
      removed.length = EVICTION_COUNT ∧
      (removed ++ setCachedTranslation 2000 "hello" "en" "es" "hola" bigCache).Perm
        (insertCacheEntry 2000 "hello" "en" "es" "hola" bigCache) ∧
      (setCachedTranslation 2000 "hello" "en" "es" "hola" bigCache).length =
        (insertCacheEntry 2000 "hello" "en" "es" "hola" bigCache).length -
          EVICTION_COUNT ∧
      ∀ r ∈ removed,
        ∀ kept ∈ setCachedTranslation 2000 "hello" "en" "es" "hola" bigCache,
          r.2.timestamp ≤ kept.2.timestamp) ∧
    (setCachedTranslation 0 "a" "en" "es" "x" [] = insertCacheEntry 0 "a" "en" "es" "x" []) :=
  have hlen : (insertCacheEntry 2000 "hello" "en" "es" "hola" bigCache).length >
      MAX_ENTRIES := by
    simp only [insertCacheEntry, cacheUpsert_length]
    have hbig : bigCache.length = 1001 := by
      simp [bigCache]
    split <;> simp [hbig, MAX_ENTRIES]
  ⟨hlen,
   (cache_eviction 2000 "hello" "en" "es" "hola" bigCache).2 hlen,
   (cache_eviction 0 "a" "en" "es" "x" []).1 (by decide)⟩

end ChatTranslator
